import Mathlib

/-!
Verification of the pester resiliency layer (retry/concurrency wrapper around
an HTTP-style client) against its natural-language specification.

The definitions below are a shallow embedding of pester.go:

* the backoff-strategy family (DefaultBackoff, LinearBackoff,
  ExponentialBackoff and the jittered variants) is embedded over Int with
  explicit 64-bit two's-complement wrapping, since Go durations are int64
  nanoseconds and Go shifts/multiplications wrap;
* the retry lane (the body of the goroutine spawned per concurrency slot in
  Client.pester) is embedded as a structurally recursive loop over the
  1-based attempt number, with oracles for the transport outcome of each
  attempt, for observation of the shared finish channel, and for context
  cancellation at the two points the code checks it;
* the front part of Client.pester (body snapshot, method whitelist, forced
  concurrency for non-GET verbs) and the log (ErrEntry, FormatError,
  LogString) are embedded directly.

Time values are nanoseconds (Go time.Duration); random draws are modelled by
a Nat seed reduced modulo the bound, and rand.Intn with a non-positive bound
is modelled as Option.none (in Go it panics).
-/

/-! ### 64-bit machine arithmetic -/

/-- Wrap an unbounded integer to int64 two's-complement range, the semantics
Go gives every arithmetic operation on int. -/
def int64Wrap (z : Int) : Int :=
  (z + 2 ^ 63) % 2 ^ 64 - 2 ^ 63

/-- One second in nanoseconds (Go time.Second). -/
def second : Int := 1000000000

/-- One millisecond in nanoseconds (Go time.Millisecond). -/
def millisecond : Int := 1000000

/-- The Go expression 1 << uint(i) at type int: a shift count that is
negative before conversion becomes huge after uint conversion, and any count
of 64 or more shifts every bit out, so both give 0; otherwise the result is
2^i wrapped to int64. -/
def goShl1 (i : Int) : Int :=
  if i < 0 ∨ 64 ≤ i then 0 else int64Wrap (2 ^ i.toNat)

/-! ### The BackoffStrategy family (pester.go lines 191-233) -/

/-- DefaultBackoff always returns 1 second. -/
def DefaultBackoff (_ : Int) : Int := second

/-- ExponentialBackoff returns time.Duration(1 << uint(i)) * time.Second. -/
def ExponentialBackoff (i : Int) : Int :=
  int64Wrap (goShl1 i * second)

/-- LinearBackoff returns time.Duration(i) * time.Second. -/
def LinearBackoff (i : Int) : Int :=
  int64Wrap (i * second)

/-- rand.Intn: uniform draw in [0, bound); Go panics when bound <= 0, which
is modelled as none. The Nat argument stands for the state of the random
source; reducing it modulo the bound reaches every legal value. -/
def randIntn (bound : Int) (r : Nat) : Option Int :=
  if bound ≤ 0 then none else some ((r : Int).emod bound)

/-- jitter keeps the plus-or-minus 0-33% logic in one place: ms := i * 1000,
maxJitter := ms / 3 (Go division truncates toward zero, Int.tdiv),
ms += random.Intn(2*maxJitter) - maxJitter, clamp to 1 if ms <= 0, then
convert to a duration by multiplying with time.Millisecond.  Every
arithmetic step wraps at int64 just as Go does. -/
def jitter (i : Int) (r : Nat) : Option Int :=
  let ms := int64Wrap (i * 1000)
  let maxJitter := ms.tdiv 3
  match randIntn (int64Wrap (2 * maxJitter)) r with
  | none => none
  | some d =>
    let ms2 := int64Wrap (ms + int64Wrap (d - maxJitter))
    let ms3 := if ms2 ≤ 0 then 1 else ms2
    some (int64Wrap (ms3 * millisecond))

/-- ExponentialJitterBackoff returns jitter(int(1 << uint(i))). -/
def ExponentialJitterBackoff (i : Int) (r : Nat) : Option Int :=
  jitter (goShl1 i) r

/-- LinearJitterBackoff returns jitter(i). -/
def LinearJitterBackoff (i : Int) (r : Nat) : Option Int :=
  jitter i r

/-! ### Arithmetic helper lemmas -/

lemma int64Wrap_id (z : Int) (h1 : -(2 ^ 63) ≤ z) (h2 : z < 2 ^ 63) :
    int64Wrap z = z := by
  unfold int64Wrap
  rw [Int.emod_eq_of_lt (by omega) (by omega)]
  omega

lemma tdiv3_nonneg (a : Int) (h : 0 ≤ a) :
    0 ≤ a.tdiv 3 ∧ 3 * a.tdiv 3 ≤ a ∧ a < 3 * a.tdiv 3 + 3 := by
  rw [Int.tdiv_eq_ediv h (by norm_num)]
  omega

lemma tdiv3_nonpos (a : Int) (h : a ≤ 0) :
    a.tdiv 3 ≤ 0 ∧ a ≤ 3 * a.tdiv 3 ∧ 3 * a.tdiv 3 < a + 3 := by
  have hneg : (-a).tdiv 3 = -a.tdiv 3 := Int.neg_tdiv a 3
  have hpos : (-a).tdiv 3 = (-a) / 3 := Int.tdiv_eq_ediv (by omega) (by norm_num)
  omega

lemma goShl1_pow (n : Nat) (h : n ≤ 62) : goShl1 (n : Int) = 2 ^ n := by
  have hb : (2 : Int) ^ n ≤ 2 ^ 62 := pow_le_pow_right₀ (by norm_num) h
  have hp : (0 : Int) < 2 ^ n := pow_pos (by norm_num) n
  have hc : ¬((n : Int) < 0 ∨ 64 ≤ (n : Int)) := by
    omega
  unfold goShl1
  rw [if_neg hc]
  have ht : ((n : Int)).toNat = n := rfl
  rw [ht]
  exact int64Wrap_id _ (by norm_num at hb ⊢; omega) (by norm_num at hb ⊢; omega)

lemma exponentialBackoff_pow (n : Nat) (h : n ≤ 33) :
    ExponentialBackoff (n : Int) = 2 ^ n * second := by
  have hb : (2 : Int) ^ n ≤ 2 ^ 33 := pow_le_pow_right₀ (by norm_num) h
  have hp : (0 : Int) < 2 ^ n := pow_pos (by norm_num) n
  unfold ExponentialBackoff
  rw [goShl1_pow n (by omega)]
  unfold second
  exact int64Wrap_id _ (by norm_num at hb ⊢; omega) (by norm_num at hb ⊢; omega)

/-- Core estimate for the jittered strategies: for a positive argument whose
millisecond count stays far from int64 overflow, jitter returns a value, the
value is at least one millisecond, and it deviates from the base duration
i seconds (= i * 10^9 ns) by at most a third of the base. -/
lemma jitter_band (i : Int) (r : Nat) (h1 : 1 ≤ i) (h2 : i ≤ 6000000000) :
    ∃ d, jitter i r = some d ∧ millisecond ≤ d ∧
      3 * (d - i * 1000000000) ≤ i * 1000000000 ∧
      3 * (i * 1000000000 - d) ≤ i * 1000000000 := by
  have hms : int64Wrap (i * 1000) = i * 1000 :=
    int64Wrap_id _ (by omega) (by omega)
  have htd := tdiv3_nonneg (i * 1000) (by omega)
  set t := (i * 1000).tdiv 3 with hteq
  have hbound : int64Wrap (2 * t) = 2 * t :=
    int64Wrap_id _ (by omega) (by omega)
  have htpos : 0 < 2 * t := by omega
  have hd0 : 0 ≤ (r : Int).emod (2 * t) ∧ (r : Int).emod (2 * t) < 2 * t :=
    ⟨Int.emod_nonneg _ (by omega), Int.emod_lt_of_pos _ htpos⟩
  set d0 := (r : Int).emod (2 * t) with hd0eq
  have hinner : int64Wrap (d0 - t) = d0 - t :=
    int64Wrap_id _ (by omega) (by omega)
  have hsum : int64Wrap (i * 1000 + (d0 - t)) = i * 1000 + (d0 - t) :=
    int64Wrap_id _ (by omega) (by omega)
  have hclamp : ¬(i * 1000 + (d0 - t) ≤ 0) := by omega
  have hfinal : int64Wrap ((i * 1000 + (d0 - t)) * 1000000) =
      (i * 1000 + (d0 - t)) * 1000000 :=
    int64Wrap_id _ (by omega) (by omega)
  refine ⟨(i * 1000 + (d0 - t)) * 1000000, ?_, ?_, ?_, ?_⟩
  · unfold jitter randIntn
    simp only [hms, ← hteq, hbound]
    rw [if_neg (by omega)]
    simp only [← hd0eq, hinner, hsum]
    rw [if_neg hclamp]
    unfold millisecond
    rw [hfinal]
  · unfold millisecond
    omega
  · omega
  · omega

/-! ### Claim C6: exponent of ExponentialBackoff -/

/-- Claim C6 counterexample: the spec says ExponentialBackoff(n) is 2^(n-1)
seconds, but at attempt 1 the code returns 2 seconds, not 2^0 = 1 second. -/
theorem exponentialBackoff_c6_counterexample :
    ¬(ExponentialBackoff 1 = 2 ^ (1 - 1) * second) := by decide

/-- Claim C6 (amended): for every 1-based attempt number n with 1 ≤ n (and
small enough that the int64 duration does not overflow, n ≤ 33),
ExponentialBackoff(n) returns 2^n seconds, not 2^(n-1). -/
theorem exponentialBackoff_c6_amended (n : Nat) (_h1 : 1 ≤ n) (h33 : n ≤ 33) :
    ExponentialBackoff (n : Int) = 2 ^ n * second :=
  exponentialBackoff_pow n h33

/-- Witness for the amended C6 at n = 3. -/
theorem exponentialBackoff_c6_witness :
    1 ≤ 3 ∧ 3 ≤ 33 ∧ ExponentialBackoff ((3 : Nat) : Int) = 2 ^ 3 * second :=
  ⟨by decide, by decide, exponentialBackoff_c6_amended 3 (by decide) (by decide)⟩

/-! ### Claim C8: jittered strategies -/

/-- Claim C8 counterexample: the claim quantifies over every attempt number
n ≥ 1, but at n = 54 the shifted base 2^54 seconds overflows int64 when
converted to milliseconds, maxJitter becomes negative, and rand.Intn is
invoked with a non-positive bound, which panics (modelled as none) instead
of returning a duration of at least one millisecond. -/
theorem jitterBackoff_c8_counterexample :
    ExponentialJitterBackoff 54 0 = none := by decide

/-- Claim C8 (amended): for every 1-based attempt number n ≥ 1 small enough
that the computation stays inside int64 (n ≤ 6·10^9 for the linear family,
n ≤ 32 for the exponential family), LinearJitterBackoff(n) and
ExponentialJitterBackoff(n) return the base duration of the corresponding
non-jittered strategy with a ±33% jitter applied, and the result is never
less than 1 millisecond. -/
theorem jitterBackoff_c8_amended (n m : Nat) (r s : Nat)
    (hn1 : 1 ≤ n) (hn : n ≤ 6000000000) (hm1 : 1 ≤ m) (hm : m ≤ 32) :
    (∃ d, LinearJitterBackoff (n : Int) r = some d ∧ millisecond ≤ d ∧
      3 * (d - LinearBackoff (n : Int)) ≤ LinearBackoff (n : Int) ∧
      3 * (LinearBackoff (n : Int) - d) ≤ LinearBackoff (n : Int)) ∧
    (∃ d, ExponentialJitterBackoff (m : Int) s = some d ∧ millisecond ≤ d ∧
      3 * (d - ExponentialBackoff (m : Int)) ≤ ExponentialBackoff (m : Int) ∧
      3 * (ExponentialBackoff (m : Int) - d) ≤ ExponentialBackoff (m : Int)) := by
  constructor
  · have hlb : LinearBackoff (n : Int) = (n : Int) * 1000000000 := by
      unfold LinearBackoff second
      exact int64Wrap_id _ (by omega) (by omega)
    obtain ⟨d, hd, h1, h2, h3⟩ :=
      jitter_band (n : Int) r (by omega) (by omega)
    exact ⟨d, hd, h1, by omega, by omega⟩
  · have hp1 : (1 : Int) ≤ 2 ^ m := one_le_pow₀ (by norm_num)
    have hpb : (2 : Int) ^ m ≤ 2 ^ 32 := pow_le_pow_right₀ (by norm_num) hm
    have heb : ExponentialBackoff (m : Int) = 2 ^ m * 1000000000 := by
      have := exponentialBackoff_pow m (by omega)
      unfold second at this
      exact this
    have hgo : goShl1 (m : Int) = 2 ^ m := goShl1_pow m (by omega)
    obtain ⟨d, hd, h1, h2, h3⟩ :=
      jitter_band ((2 : Int) ^ m) s (by omega) (by norm_num at hpb ⊢; omega)
    refine ⟨d, ?_, h1, by omega, by omega⟩
    unfold ExponentialJitterBackoff
    rw [hgo]
    exact hd

/-- Witness for the amended C8 at n = m = 2 with seed 0. -/
theorem jitterBackoff_c8_witness :
    1 ≤ 2 ∧ 2 ≤ 6000000000 ∧ 2 ≤ 32 ∧
    ((∃ d, LinearJitterBackoff ((2 : Nat) : Int) 0 = some d ∧ millisecond ≤ d ∧
      3 * (d - LinearBackoff ((2 : Nat) : Int)) ≤ LinearBackoff ((2 : Nat) : Int) ∧
      3 * (LinearBackoff ((2 : Nat) : Int) - d) ≤ LinearBackoff ((2 : Nat) : Int)) ∧
    (∃ d, ExponentialJitterBackoff ((2 : Nat) : Int) 0 = some d ∧ millisecond ≤ d ∧
      3 * (d - ExponentialBackoff ((2 : Nat) : Int)) ≤ ExponentialBackoff ((2 : Nat) : Int) ∧
      3 * (ExponentialBackoff ((2 : Nat) : Int) - d) ≤ ExponentialBackoff ((2 : Nat) : Int))) :=
  ⟨by decide, by decide, by decide,
    jitterBackoff_c8_amended 2 2 0 0 (by decide) (by decide) (by decide) (by decide)⟩

/-! ### Claim C10: totality domain of the jitter helper -/

/-- Claim C10 counterexample: the claim asserts jitter (hence
LinearJitterBackoff) terminates with at least 1 ms for every n ≥ 1, but at
n = 2^54 the millisecond conversion overflows int64, maxJitter becomes
negative and the bounded random draw panics (modelled as none). -/
theorem jitter_c10_counterexample :
    LinearJitterBackoff 18014398509481984 0 = none := by decide

/-- Claim C10 (amended): the jitter helper (and hence LinearJitterBackoff)
is total and returns at least 1 millisecond only for positive attempt
numbers whose millisecond count stays inside int64 (1 ≤ i ≤ 6·10^9); for
every i ≤ 0 (with i*1000 in int64 range) it hands the bounded random-integer
primitive a non-positive bound and panics. -/
theorem jitter_c10_amended (i j : Int) (r s : Nat)
    (hi1 : 1 ≤ i) (hi : i ≤ 6000000000)
    (hj : j ≤ 0) (hjr : -(2 ^ 63) ≤ j * 1000) :
    (∃ d, jitter i r = some d ∧ LinearJitterBackoff i r = some d ∧
      millisecond ≤ d) ∧
    jitter j s = none ∧ LinearJitterBackoff j s = none := by
  refine ⟨?_, ?_⟩
  · obtain ⟨d, hd, h1, _, _⟩ := jitter_band i r hi1 hi
    exact ⟨d, hd, hd, h1⟩
  · have hms : int64Wrap (j * 1000) = j * 1000 :=
      int64Wrap_id _ (by omega) (by omega)
    have htd := tdiv3_nonpos (j * 1000) (by omega)
    set t := (j * 1000).tdiv 3 with hteq
    have hbound : int64Wrap (2 * t) = 2 * t :=
      int64Wrap_id _ (by omega) (by omega)
    have hnone : jitter j s = none := by
      unfold jitter randIntn
      simp only [hms, ← hteq, hbound]
      rw [if_pos (by omega)]
    exact ⟨hnone, hnone⟩

/-- Witness for the amended C10 at i = 1, j = 0 with seed 0. -/
theorem jitter_c10_witness :
    1 ≤ (1 : Int) ∧ (1 : Int) ≤ 6000000000 ∧ (0 : Int) ≤ 0 ∧
    -(2 ^ 63) ≤ (0 : Int) * 1000 ∧
    ((∃ d, jitter 1 0 = some d ∧ LinearJitterBackoff 1 0 = some d ∧
      millisecond ≤ d) ∧
    jitter 0 0 = none ∧ LinearJitterBackoff 0 0 = none) :=
  ⟨by decide, by decide, by decide, by decide,
    jitter_c10_amended 1 0 0 0 (by decide) (by decide) (by decide) (by decide)⟩

/-! ### Transport outcomes and attempt classification (pester.go line 393) -/

/-- The outcome of one call of httpClient.Do: either a response with a nil
error, or a non-nil error (a response may still accompany it, e.g. when a
redirect policy fails, so a status is optionally carried). -/
inductive Outcome where
  | ok (status : Nat) : Outcome
  | fail (msg : String) (status : Option Nat) : Outcome
deriving DecidableEq

/-- The early-return condition of the retry loop, transcribed from
err == nil && resp.StatusCode < 500 && (resp.StatusCode != 429 ||
(resp.StatusCode == 429 && !c.RetryOnHTTP429)). -/
def shouldDeliver (retry429 : Bool) : Outcome → Bool
  | .fail _ _ => false
  | .ok s => decide (s < 500) && (!(s == 429) || (s == 429 && !retry429))

/-- The error value of the outcome, as stored into ErrEntry.Err. -/
def outcomeErr : Outcome → Option String
  | .ok _ => none
  | .fail e _ => some e

/-- The response (by its status code) accompanying the outcome, if any. -/
def statusOf : Outcome → Option Nat
  | .ok s => some s
  | .fail _ st => st

/-! ### Errors surfaced to the caller -/

inductive CallError where
  | transportErr (msg : String)
  | ctxCancelled
  | readingRequestBody
  | unexpectedMethod
  | requestBuild (msg : String)
deriving DecidableEq

/-- The error component of the result a lane sends after exhausting its
attempts: the transport error of the last attempt (nil for a status-based
failure). -/
def errOf : Outcome → Option CallError
  | .ok _ => none
  | .fail e _ => some (.transportErr e)

/-! ### The attempt log (pester.go ErrEntry) -/

/-- ErrEntry as populated by the retry loop; Retry is the deprecated
counter set to Attempt + 1. -/
structure ErrEntry where
  Time : Int
  Method : String
  URL : String
  Verb : String
  Request : Int
  Retry : Int
  Attempt : Int
  Err : Option String
deriving DecidableEq

/-! ### One retry lane (the goroutine body, pester.go lines 370-449) -/

/-- A lane environment: the configuration the goroutine reads, together
with oracles abstracting its interactions with the outside world: the
transport outcome of each 1-based attempt, the time of each attempt, whether
the shared finish channel is observed closed at the check before an attempt,
and whether context cancellation is observed at the post-log check or fires
during the backoff wait after an attempt. -/
structure LaneEnv where
  retry429 : Bool
  limit : Nat
  method : String
  verb : String
  url : String
  laneIdx : Nat
  buildErr : Option String
  outcome : Nat → Outcome
  attemptTime : Nat → Int
  finished : Nat → Bool
  cancelledAfterLog : Nat → Bool
  cancelledInBackoff : Nat → Bool

/-- The ErrEntry logged for failed attempt i (pester.go lines 399-411). -/
def mkEntry (env : LaneEnv) (i : Nat) : ErrEntry :=
  { Time := env.attemptTime i, Method := env.method, URL := env.url,
    Verb := env.verb, Request := (env.laneIdx : Int), Retry := (i : Int) + 1,
    Attempt := (i : Int), Err := outcomeErr (env.outcome i) }

/-- How a lane terminates: delivering a success, delivering the failure of
the last allowed attempt, delivering a cancellation error, failing to build
its request, or returning silently (finish channel observed, or the loop
guard i <= AttemptLimit failed, which needs limit = 0). -/
inductive LaneOutcome where
  | delivered (attempt : Nat) (o : Outcome)
  | exhausted (attempt : Nat) (o : Outcome)
  | cancelled (attempt : Nat) (o : Outcome)
  | buildFailed (msg : String)
  | noResult
deriving DecidableEq

/-- What one lane produced: the ErrEntry records it logged, the number of
transport attempts it performed, and how it terminated. -/
structure LaneRun where
  log : List ErrEntry
  attempts : Nat
  res : LaneOutcome
deriving DecidableEq

/-- The retry loop from attempt i with rem loop iterations still allowed by
the guard i <= AttemptLimit (rem is limit + 1 - i; running out models the
guard failing).  Each iteration: check the finish channel, perform the
attempt, deliver on the early-return condition, log the failed attempt,
deliver if this was the last attempt, check cancellation, wait on backoff
racing cancellation, retry. -/
def laneSteps (env : LaneEnv) : Nat → Nat → LaneRun
  | 0, _ => ⟨[], 0, .noResult⟩
  | rem + 1, i =>
    if env.finished i then ⟨[], 0, .noResult⟩
    else
      let o := env.outcome i
      if shouldDeliver env.retry429 o then ⟨[], 1, .delivered i o⟩
      else if i = env.limit then ⟨[mkEntry env i], 1, .exhausted i o⟩
      else if env.cancelledAfterLog i then ⟨[mkEntry env i], 1, .cancelled i o⟩
      else if env.cancelledInBackoff i then ⟨[mkEntry env i], 1, .cancelled i o⟩
      else
        let rest := laneSteps env rem (i + 1)
        ⟨mkEntry env i :: rest.log, rest.attempts + 1, rest.res⟩

/-- The retry loop entered at attempt i. -/
def laneLoop (env : LaneEnv) (i : Nat) : LaneRun :=
  laneSteps env (env.limit + 1 - i) i

/-- A whole lane: provideRequest first (an error there is sent back without
any attempt), then the retry loop from attempt 1. -/
def laneRun (env : LaneEnv) : LaneRun :=
  match env.buildErr with
  | some e => ⟨[], 0, .buildFailed e⟩
  | none => laneLoop env 1

/-! ### Client configuration and call parameters -/

/-- The pester-specific client configuration read by one call (the http
internals and the backoff timing are abstracted away; backoff durations
influence the model only through the cancellation oracles). -/
structure Client where
  Concurrency : Nat
  MaxRetries : Int
  KeepLog : Bool
  RetryOnHTTP429 : Bool

/-- A request body stream: reading it either yields bytes or fails. -/
inductive BodyStream where
  | good (content : List Nat)
  | bad
deriving DecidableEq

/-- Client.copyBody: ReadAll the stream; a read failure becomes
ErrReadingRequestBody. -/
def copyBody : BodyStream → Except CallError (List Nat)
  | .good content => Except.ok content
  | .bad => Except.error CallError.readingRequestBody

/-- The params struct handed to Client.pester. -/
structure Params where
  method : String
  verb : String
  url : String
  bodyType : String
  hasReq : Bool
  reqBody : Option BodyStream
  body : Option BodyStream

/-- Capturing originalBody (pester.go lines 309-316): read the request body
when a request with a body was supplied and no free-standing body was,
otherwise read the free-standing body if there is one. -/
def captureBody (p : Params) : Except CallError (List Nat) :=
  match p.hasReq, p.reqBody, p.body with
  | true, some src, none => copyBody src
  | _, _, some src => copyBody src
  | _, _, none => Except.ok []

def methodDo : String := "Do"
def methodGet : String := "Get"
def methodHead : String := "Head"
def methodPost : String := "Post"
def methodPostForm : String := "PostForm"

/-- The method whitelist (pester.go lines 319-323). -/
def methodSupported (m : String) : Bool :=
  m == methodDo || m == methodGet || m == methodHead || m == methodPostForm ||
    m == methodPost

/-- GET calls may use the configured concurrency; any other verb is forced
to a single lane (pester.go lines 280-283). -/
def effectiveConcurrency (conc : Nat) (verb : String) : Nat :=
  if verb ≠ "GET" then 1 else conc

/-- AttemptLimit := c.MaxRetries, raised to 1 when non-positive
(pester.go lines 362-365). -/
def attemptLimit (maxRetries : Int) : Int :=
  if maxRetries ≤ 0 then 1 else maxRetries

/-- The per-lane oracles of one call. -/
structure LaneOracle where
  buildErr : Option String
  outcome : Nat → Outcome
  attemptTime : Nat → Int
  finished : Nat → Bool
  cancelledAfterLog : Nat → Bool
  cancelledInBackoff : Nat → Bool

/-- Assemble the environment lane n runs in. -/
def mkLaneEnv (c : Client) (p : Params) (o : LaneOracle) (n : Nat) : LaneEnv :=
  { retry429 := c.RetryOnHTTP429, limit := (attemptLimit c.MaxRetries).toNat,
    method := p.method, verb := p.verb, url := p.url, laneIdx := n,
    buildErr := o.buildErr, outcome := o.outcome,
    attemptTime := o.attemptTime, finished := o.finished,
    cancelledAfterLog := o.cancelledAfterLog,
    cancelledInBackoff := o.cancelledInBackoff }

/-- The result a lane pushes onto the multiplex channel, if any:
(response-status-or-none, error-or-none). -/
def sentResult : LaneOutcome → Option (Option Nat × Option CallError)
  | .delivered _ o => some (statusOf o, none)
  | .exhausted _ o => some (statusOf o, errOf o)
  | .cancelled _ o => some (statusOf o, some CallError.ctxCancelled)
  | .buildFailed e => some (none, some (CallError.requestBuild e))
  | .noResult => none

/-- What one call of Client.pester produced: the (response, error) pair
delivered to the caller (the first lane result to arrive; lane order stands
in for arrival order), the ErrEntry records appended to c.ErrLog (appended
only when KeepLog is set), the number of lanes spawned, and the total number
of transport attempts across all lanes. -/
structure CallResult where
  res : Option (Option Nat × Option CallError)
  errLogAppended : List ErrEntry
  lanes : Nat
  attempts : Nat
deriving DecidableEq

/-- Client.pester: capture the body (failing the call before any attempt on
a read error), reject unsupported methods, then race the lanes. -/
def pesterCall (c : Client) (p : Params) (o : Nat → LaneOracle) : CallResult :=
  match captureBody p with
  | .error er => ⟨some (none, some er), [], 0, 0⟩
  | .ok _ =>
    if methodSupported p.method then
      let conc := effectiveConcurrency c.Concurrency p.verb
      let runs := (List.range conc).map fun n => laneRun (mkLaneEnv c p (o n) n)
      ⟨(runs.filterMap fun rn => sentResult rn.res).head?,
        if c.KeepLog then (runs.map LaneRun.log).flatten else [],
        conc,
        (runs.map LaneRun.attempts).sum⟩
    else ⟨some (none, some CallError.unexpectedMethod), [], 0, 0⟩

/-! ### Rendering the log (pester.go FormatError / LogString) -/

/-- fmt's rendering of the Err field under the s verb: the message, or the
placeholder fmt prints for a nil error. -/
def errString : Option String → String
  | some s => s
  | none => "%!s(<nil>)"

/-- FormatError: Sprintf of Time.Unix, Method, Verb, URL, Request, Retry and
Err, exactly in the layout of pester.go line 497.  Note the rendered counter
is the deprecated Retry field, not Attempt. -/
def FormatError (e : ErrEntry) : String :=
  toString e.Time ++ " " ++ e.Method ++ " [" ++ e.Verb ++ "] " ++ e.URL ++
    " request-" ++ toString e.Request ++ " retry-" ++ toString e.Retry ++
    " error: " ++ errString e.Err ++ "\n"

/-- LogString concatenates FormatError over the retained ErrLog in order
(the Go loop appends with +=). -/
def LogString : List ErrEntry → String
  | [] => ""
  | e :: rest => FormatError e ++ LogString rest

/-- Substring containment on strings, via the underlying character lists. -/
def strContains (s sub : String) : Prop :=
  ∃ l r, s.data = l ++ sub.data ++ r

def newline : Char := '\n'

lemma strContains_refl (s : String) : strContains s s :=
  ⟨[], [], by simp⟩

lemma strContains_app_left (a b u : String) (h : strContains a u) :
    strContains (a ++ b) u := by
  obtain ⟨l, r, hs⟩ := h
  exact ⟨l, r ++ b.data, by rw [String.data_append, hs]; simp⟩

lemma strContains_app_right (a b u : String) (h : strContains b u) :
    strContains (a ++ b) u := by
  obtain ⟨l, r, hs⟩ := h
  exact ⟨a.data ++ l, r, by rw [String.data_append, hs]; simp⟩

lemma strContains_mem (s sub : String) (h : strContains s sub) :
    ∀ c ∈ sub.data, c ∈ s.data := by
  obtain ⟨l, r, hs⟩ := h
  intro c hc
  rw [hs]
  simp only [List.mem_append]
  exact Or.inl (Or.inr hc)

/-! Decimal rendering produces no newline characters. -/

lemma digitChar_ne_newline : ∀ k, k < 16 → Nat.digitChar k ≠ newline := by
  decide

lemma toDigitsCore_ne_newline (fuel : Nat) :
    ∀ (n : Nat) (acc : List Char), (∀ c ∈ acc, c ≠ newline) →
      ∀ c ∈ Nat.toDigitsCore 10 fuel n acc, c ≠ newline := by
  induction fuel with
  | zero =>
    intro n acc hacc c hc
    exact hacc c hc
  | succ fuel ih =>
    intro n acc hacc c hc
    unfold Nat.toDigitsCore at hc
    by_cases hz : n / 10 = 0
    · rw [if_pos hz] at hc
      rcases List.mem_cons.mp hc with h | h
      · exact h ▸ digitChar_ne_newline (n % 10) (by omega)
      · exact hacc c h
    · rw [if_neg hz] at hc
      refine ih (n / 10) _ ?_ c hc
      intro c2 hc2
      rcases List.mem_cons.mp hc2 with h | h
      · exact h ▸ digitChar_ne_newline (n % 10) (by omega)
      · exact hacc c2 h

lemma natRepr_ne_newline (n : Nat) : ∀ c ∈ (Nat.repr n).data, c ≠ newline := by
  intro c hc
  exact toDigitsCore_ne_newline (n + 1) n [] (by simp) c hc

lemma intRepr_ne_newline (z : Int) : ∀ c ∈ (toString z).data, c ≠ newline := by
  cases z with
  | ofNat m => exact natRepr_ne_newline m
  | negSucc m =>
    intro c hc
    have he : toString (Int.negSucc m) = "-" ++ Nat.repr (m + 1) := rfl
    rw [he, String.data_append] at hc
    rcases List.mem_append.mp hc with h | h
    · have : c = '-' := by simpa using h
      rw [this]
      decide
    · exact natRepr_ne_newline (m + 1) c h

lemma count_append_str (a b : String) (c : Char) :
    (a ++ b).data.count c = a.data.count c + b.data.count c := by
  rw [String.data_append, List.count_append]

lemma count_zero_of_ne (s : String) (h : ∀ c ∈ s.data, c ≠ newline) :
    s.data.count newline = 0 :=
  List.count_eq_zero.mpr (fun hmem => (h _ hmem) rfl)

/-- Each rendered ErrEntry whose string fields are newline-free is exactly
one line: it contains exactly one newline character, the final one. -/
lemma formatError_one_newline (e : ErrEntry)
    (hM : ∀ c ∈ e.Method.data, c ≠ newline)
    (hV : ∀ c ∈ e.Verb.data, c ≠ newline)
    (hU : ∀ c ∈ e.URL.data, c ≠ newline)
    (hE : ∀ c ∈ (errString e.Err).data, c ≠ newline) :
    (FormatError e).data.count newline = 1 := by
  unfold FormatError
  repeat rw [count_append_str]
  rw [count_zero_of_ne _ (intRepr_ne_newline e.Time)]
  rw [count_zero_of_ne _ (intRepr_ne_newline e.Request)]
  rw [count_zero_of_ne _ (intRepr_ne_newline e.Retry)]
  rw [count_zero_of_ne _ hM, count_zero_of_ne _ hV, count_zero_of_ne _ hU,
    count_zero_of_ne _ hE]
  decide

/-! ### Unfolding lemmas for the retry lane -/

/-- One iteration of the retry loop, for an attempt number still allowed by
the loop guard. -/
lemma laneLoop_step (env : LaneEnv) (i : Nat) (h : i ≤ env.limit) :
    laneLoop env i =
      if env.finished i then ⟨[], 0, .noResult⟩
      else if shouldDeliver env.retry429 (env.outcome i) then
        ⟨[], 1, .delivered i (env.outcome i)⟩
      else if i = env.limit then
        ⟨[mkEntry env i], 1, .exhausted i (env.outcome i)⟩
      else if env.cancelledAfterLog i then
        ⟨[mkEntry env i], 1, .cancelled i (env.outcome i)⟩
      else if env.cancelledInBackoff i then
        ⟨[mkEntry env i], 1, .cancelled i (env.outcome i)⟩
      else
        ⟨mkEntry env i :: (laneLoop env (i + 1)).log,
          (laneLoop env (i + 1)).attempts + 1, (laneLoop env (i + 1)).res⟩ := by
  unfold laneLoop
  have h1 : env.limit + 1 - i = (env.limit - i) + 1 := by omega
  have h2 : env.limit + 1 - (i + 1) = env.limit - i := by omega
  rw [h1, h2]
  rfl

/-- When every attempt fails retryably and neither the finish channel nor a
cancellation is ever observed, the loop entered at attempt i with d further
attempts remaining logs exactly the attempts i..limit in order and finishes
exhausted on the last attempt. -/
lemma laneLoop_allFail (env : LaneEnv)
    (hfail : ∀ j, shouldDeliver env.retry429 (env.outcome j) = false)
    (hfin : ∀ j, env.finished j = false)
    (hca : ∀ j, env.cancelledAfterLog j = false)
    (hcb : ∀ j, env.cancelledInBackoff j = false) :
    ∀ d i, 1 ≤ i → env.limit = i + d →
      laneLoop env i =
        ⟨(List.range' i (d + 1)).map (mkEntry env), d + 1,
          .exhausted env.limit (env.outcome env.limit)⟩ := by
  intro d
  induction d with
  | zero =>
    intro i h1 hlim
    rw [laneLoop_step env i (by omega)]
    rw [hfin i, hfail i]
    simp only [Bool.false_eq_true, if_false]
    rw [if_pos (by omega : i = env.limit)]
    have : env.limit = i := by omega
    subst this
    rfl
  | succ d ih =>
    intro i h1 hlim
    rw [laneLoop_step env i (by omega)]
    rw [hfin i, hfail i, hca i, hcb i]
    simp only [Bool.false_eq_true, if_false]
    rw [if_neg (by omega : ¬(i = env.limit))]
    rw [ih (i + 1) (by omega) (by omega)]
    have hr : List.range' i (d + 1 + 1) = i :: List.range' (i + 1) (d + 1) := rfl
    rw [hr]
    rfl

/-! ### Helper lemmas for the claim theorems -/

/-- The early-return condition spelled out: a response came back with a nil
error, its status is below 500, and it is not a 429 with retry-on-429
enabled. -/
lemma shouldDeliver_iff (b : Bool) (o : Outcome) :
    shouldDeliver b o = true ↔
      ∃ s, o = Outcome.ok s ∧ s < 500 ∧ (s ≠ 429 ∨ b = false) := by
  cases o with
  | fail e st =>
    constructor
    · intro h
      exact absurd h (by simp [shouldDeliver])
    · rintro ⟨s, hs, -, -⟩
      exact Outcome.noConfusion hs
  | ok s =>
    simp only [shouldDeliver, Bool.and_eq_true, Bool.or_eq_true,
      Bool.not_eq_true', decide_eq_true_eq, beq_iff_eq, beq_eq_false_iff_ne,
      Outcome.ok.injEq]
    constructor
    · rintro ⟨hlt, hor⟩
      refine ⟨s, rfl, hlt, ?_⟩
      rcases hor with h | ⟨-, hb⟩
      · exact Or.inl h
      · exact Or.inr hb
    · rintro ⟨s2, hs2, hlt, hor⟩
      subst hs2
      refine ⟨hlt, ?_⟩
      rcases hor with h | hb
      · exact Or.inl h
      · by_cases h429 : s = 429
        · exact Or.inr ⟨h429, hb⟩
        · exact Or.inl h429

/-- A lane whose request builds successfully is exactly the retry loop from
attempt 1. -/
lemma laneRun_of_buildNone (env : LaneEnv) (h : env.buildErr = none) :
    laneRun env = laneLoop env 1 := by
  unfold laneRun
  rw [h]

lemma flatten_const_length {α : Type} (f : Nat → List α) (R : Nat)
    (hf : ∀ n, (f n).length = R) :
    ∀ C, (((List.range C).map f).flatten).length = C * R := by
  intro C
  induction C with
  | zero => simp
  | succ C ih =>
    rw [List.range_succ, List.map_append, List.flatten_append,
      List.length_append, ih]
    simp only [List.map_cons, List.map_nil, List.flatten_cons,
      List.flatten_nil, List.append_nil, hf C]
    ring

/-! ### Claim C1: outcome classification drives delivery vs retry -/

/-- Claim C1: at any attempt a lane actually performs, the early-return
condition holds exactly when the transport returned no error, the status is
below 500, and the status is not 429 with retry-on-429 enabled; when it
holds the lane delivers that outcome immediately as its result (one attempt,
nothing logged), and otherwise the outcome is retryable: the attempt is
logged, and the lane either terminates exhausted (last attempt) or continues
its retry loop with the next attempt. -/
theorem attempt_classification_c1 (env : LaneEnv) (i : Nat)
    (_h1 : 1 ≤ i) (hle : i ≤ env.limit) (hfin : env.finished i = false) :
    (shouldDeliver env.retry429 (env.outcome i) = true ↔
      ∃ s, env.outcome i = Outcome.ok s ∧ s < 500 ∧
        (s ≠ 429 ∨ env.retry429 = false)) ∧
    (shouldDeliver env.retry429 (env.outcome i) = true →
      laneLoop env i = ⟨[], 1, LaneOutcome.delivered i (env.outcome i)⟩) ∧
    (shouldDeliver env.retry429 (env.outcome i) = false →
      (laneLoop env i).log.head? = some (mkEntry env i) ∧
      (i = env.limit →
        laneLoop env i =
          ⟨[mkEntry env i], 1, LaneOutcome.exhausted i (env.outcome i)⟩) ∧
      (i < env.limit → env.cancelledAfterLog i = false →
        env.cancelledInBackoff i = false →
        laneLoop env i =
          ⟨mkEntry env i :: (laneLoop env (i + 1)).log,
            (laneLoop env (i + 1)).attempts + 1,
            (laneLoop env (i + 1)).res⟩)) := by
  refine ⟨shouldDeliver_iff _ _, ?_, ?_⟩
  · intro hd
    rw [laneLoop_step env i hle]
    simp [hfin, hd]
  · intro hnd
    refine ⟨?_, ?_, ?_⟩
    · rw [laneLoop_step env i hle, if_neg (by simp [hfin]), if_neg (by simp [hnd])]
      by_cases hlim : i = env.limit
      · rw [if_pos hlim]
        rfl
      · rw [if_neg hlim]
        by_cases hcaB : env.cancelledAfterLog i = true
        · rw [if_pos hcaB]
          rfl
        · rw [if_neg hcaB]
          by_cases hcbB : env.cancelledInBackoff i = true
          · rw [if_pos hcbB]
            rfl
          · rw [if_neg hcbB]
            rfl
    · intro hlim
      rw [laneLoop_step env i hle, if_neg (by simp [hfin]),
        if_neg (by simp [hnd]), if_pos hlim]
    · intro hlt hcaF hcbF
      rw [laneLoop_step env i hle, if_neg (by simp [hfin]),
        if_neg (by simp [hnd]), if_neg (by omega : ¬(i = env.limit)),
        if_neg (by simp [hcaF]), if_neg (by simp [hcbF])]

/-- A concrete lane environment: two allowed attempts, every transport call
failing with a connection error, nothing cancelled. -/
def envC1 : LaneEnv :=
  { retry429 := false, limit := 2, method := "Get", verb := "GET", url := "u",
    laneIdx := 0, buildErr := none,
    outcome := fun _ => Outcome.fail "x" none, attemptTime := fun _ => 0,
    finished := fun _ => false, cancelledAfterLog := fun _ => false,
    cancelledInBackoff := fun _ => false }

/-- Witness for C1 at envC1, attempt 1. -/
theorem attempt_classification_c1_witness :
    1 ≤ 1 ∧ 1 ≤ envC1.limit ∧ envC1.finished 1 = false ∧
    ((shouldDeliver envC1.retry429 (envC1.outcome 1) = true ↔
      ∃ s, envC1.outcome 1 = Outcome.ok s ∧ s < 500 ∧
        (s ≠ 429 ∨ envC1.retry429 = false)) ∧
    (shouldDeliver envC1.retry429 (envC1.outcome 1) = true →
      laneLoop envC1 1 = ⟨[], 1, LaneOutcome.delivered 1 (envC1.outcome 1)⟩) ∧
    (shouldDeliver envC1.retry429 (envC1.outcome 1) = false →
      (laneLoop envC1 1).log.head? = some (mkEntry envC1 1) ∧
      (1 = envC1.limit →
        laneLoop envC1 1 =
          ⟨[mkEntry envC1 1], 1, LaneOutcome.exhausted 1 (envC1.outcome 1)⟩) ∧
      (1 < envC1.limit → envC1.cancelledAfterLog 1 = false →
        envC1.cancelledInBackoff 1 = false →
        laneLoop envC1 1 =
          ⟨mkEntry envC1 1 :: (laneLoop envC1 2).log,
            (laneLoop envC1 2).attempts + 1, (laneLoop envC1 2).res⟩))) :=
  ⟨by decide, by decide, rfl,
    attempt_classification_c1 envC1 1 (by decide) (by decide) rfl⟩

/-! ### Claim C3: the per-lane attempt limit -/

/-- Claim C3 (amended): AttemptLimit is MaxRetries when that is at least 1 and 1
otherwise; in particular with MaxRetries ≤ 0 a lane that is not stopped by
the finish signal performs exactly one transport attempt. -/
theorem attempt_limit_c3 (m : Int) (env : LaneEnv)
    (hlim : env.limit = (attemptLimit m).toNat)
    (hbuild : env.buildErr = none)
    (hfin : env.finished 1 = false) :
    (m ≤ 0 → attemptLimit m = 1 ∧ (laneRun env).attempts = 1) ∧
    (1 ≤ m → attemptLimit m = m) := by
  constructor
  · intro hm
    have ha : attemptLimit m = 1 := by
      unfold attemptLimit
      rw [if_pos hm]
    refine ⟨ha, ?_⟩
    have hl1 : env.limit = 1 := by
      rw [hlim, ha]
      rfl
    rw [laneRun_of_buildNone env hbuild]
    rw [laneLoop_step env 1 (by omega)]
    by_cases hd : shouldDeliver env.retry429 (env.outcome 1) = true
    · simp [hfin, hd]
    · simp [hfin, hd, hl1]
  · intro hm
    unfold attemptLimit
    rw [if_neg (by omega)]

/-- A concrete lane environment with limit 1 for the C3 witness. -/
def envC3 : LaneEnv :=
  { retry429 := false, limit := 1, method := "Get", verb := "GET", url := "u",
    laneIdx := 0, buildErr := none,
    outcome := fun _ => Outcome.fail "x" none, attemptTime := fun _ => 0,
    finished := fun _ => false, cancelledAfterLog := fun _ => false,
    cancelledInBackoff := fun _ => false }

/-- Witness for C3 at MaxRetries = -2 (treated as one attempt). -/
theorem attempt_limit_c3_witness :
    envC3.limit = (attemptLimit (-2)).toNat ∧ envC3.buildErr = none ∧
    envC3.finished 1 = false ∧
    (((-2 : Int) ≤ 0 → attemptLimit (-2) = 1 ∧ (laneRun envC3).attempts = 1) ∧
    (1 ≤ (-2 : Int) → attemptLimit (-2) = -2)) :=
  ⟨by decide, rfl, rfl, attempt_limit_c3 (-2) envC3 (by decide) rfl rfl⟩

/-! ### Claim C4: lanes spawned and forced concurrency -/

/-- Claim C4: a call that passes the body and method checks spawns exactly
effectiveConcurrency lanes, which is 1 for every verb other than GET and the
configured Concurrency for GET. -/
theorem concurrency_c4 (c : Client) (p : Params) (o : Nat → LaneOracle)
    (b : List Nat)
    (hcap : captureBody p = Except.ok b)
    (hm : methodSupported p.method = true) :
    (pesterCall c p o).lanes = effectiveConcurrency c.Concurrency p.verb ∧
    (p.verb ≠ "GET" → effectiveConcurrency c.Concurrency p.verb = 1) ∧
    (p.verb = "GET" → effectiveConcurrency c.Concurrency p.verb =
      c.Concurrency) := by
  refine ⟨?_, ?_, ?_⟩
  · simp only [pesterCall, hcap, hm, if_true]
  · intro h
    unfold effectiveConcurrency
    rw [if_pos h]
  · intro h
    unfold effectiveConcurrency
    rw [if_neg (by simp [h])]

/-- Parameters of a POST call (non-idempotent verb) for the C4 witness. -/
def paramsC4 : Params :=
  { method := "Post", verb := "POST", url := "u", bodyType := "text/plain",
    hasReq := false, reqBody := none,
    body := some (BodyStream.good [104, 105]) }

/-- A client configured for three-way concurrency. -/
def clientC4 : Client :=
  { Concurrency := 3, MaxRetries := 3, KeepLog := true,
    RetryOnHTTP429 := false }

/-- An always-failing, never-cancelled lane oracle, shared by witnesses. -/
def oracleAllFail : LaneOracle :=
  { buildErr := none, outcome := fun _ => Outcome.fail "connection refused" none,
    attemptTime := fun _ => 0, finished := fun _ => false,
    cancelledAfterLog := fun _ => false, cancelledInBackoff := fun _ => false }

/-- Witness for C4: a POST call with Concurrency = 3 runs one lane. -/
theorem concurrency_c4_witness :
    captureBody paramsC4 = Except.ok [104, 105] ∧
    methodSupported paramsC4.method = true ∧
    ((pesterCall clientC4 paramsC4 (fun _ => oracleAllFail)).lanes =
      effectiveConcurrency clientC4.Concurrency paramsC4.verb ∧
    (paramsC4.verb ≠ "GET" →
      effectiveConcurrency clientC4.Concurrency paramsC4.verb = 1) ∧
    (paramsC4.verb = "GET" →
      effectiveConcurrency clientC4.Concurrency paramsC4.verb =
        clientC4.Concurrency)) :=
  ⟨rfl, rfl, concurrency_c4 clientC4 paramsC4 (fun _ => oracleAllFail)
    [104, 105] rfl rfl⟩

/-! ### Claim C7: a failing body read aborts the call before any attempt -/

/-- The only error copyBody produces is ErrReadingRequestBody. -/
lemma copyBody_error (src : BodyStream) (er : CallError)
    (h : copyBody src = Except.error er) :
    er = CallError.readingRequestBody := by
  cases src with
  | good content => exact Except.noConfusion h
  | bad =>
    injection h with h2
    exact h2.symm

/-- Hence so is the only error of the body-capture phase. -/
lemma captureBody_error (p : Params) (er : CallError)
    (h : captureBody p = Except.error er) :
    er = CallError.readingRequestBody := by
  unfold captureBody at h
  split at h
  · exact copyBody_error _ _ h
  · exact copyBody_error _ _ h
  · exact Except.noConfusion h

/-- Claim C7: when capturing the request body fails, the error is
ErrReadingRequestBody and the call returns a nil response with that error
having made no transport attempt, spawned no lane, and appended nothing to
the error log. -/
theorem body_read_error_c7 (c : Client) (p : Params) (o : Nat → LaneOracle)
    (er : CallError) (h : captureBody p = Except.error er) :
    er = CallError.readingRequestBody ∧
    pesterCall c p o =
      ⟨some (none, some CallError.readingRequestBody), [], 0, 0⟩ := by
  have her : er = CallError.readingRequestBody := captureBody_error p er h
  subst her
  refine ⟨rfl, ?_⟩
  unfold pesterCall
  rw [h]

/-- Parameters whose free-standing body stream fails to read. -/
def paramsC7 : Params :=
  { method := "Post", verb := "POST", url := "u", bodyType := "text/plain",
    hasReq := false, reqBody := none, body := some BodyStream.bad }

/-- Witness for C7: the failing-body POST call returns the body-read error
with zero lanes, zero attempts and an untouched log. -/
theorem body_read_error_c7_witness :
    captureBody paramsC7 = Except.error CallError.readingRequestBody ∧
    (CallError.readingRequestBody = CallError.readingRequestBody ∧
    pesterCall clientC4 paramsC7 (fun _ => oracleAllFail) =
      ⟨some (none, some CallError.readingRequestBody), [], 0, 0⟩) :=
  ⟨rfl, body_read_error_c7 clientC4 paramsC7 (fun _ => oracleAllFail)
    CallError.readingRequestBody rfl⟩

/-! ### Claim C2: total logged attempts with an always-retryable endpoint -/

/-- Claim C2 (amended): with log retention on, when every transport attempt of every
lane is retryable and no lane observes the finish signal or a cancellation,
a completed call appends exactly
effectiveConcurrency × AttemptLimit records to the error log. -/
theorem log_count_c2 (c : Client) (p : Params) (o : Nat → LaneOracle)
    (b : List Nat)
    (hkeep : c.KeepLog = true)
    (hcap : captureBody p = Except.ok b)
    (hm : methodSupported p.method = true)
    (hbuild : ∀ n, (o n).buildErr = none)
    (hfail : ∀ n j, shouldDeliver c.RetryOnHTTP429 ((o n).outcome j) = false)
    (hfin : ∀ n j, (o n).finished j = false)
    (hca : ∀ n j, (o n).cancelledAfterLog j = false)
    (hcb : ∀ n j, (o n).cancelledInBackoff j = false) :
    (pesterCall c p o).errLogAppended.length =
      effectiveConcurrency c.Concurrency p.verb *
        (attemptLimit c.MaxRetries).toNat := by
  have hlim : 1 ≤ (attemptLimit c.MaxRetries).toNat := by
    unfold attemptLimit
    split <;> omega
  have hlane : ∀ n : Nat, (laneRun (mkLaneEnv c p (o n) n)).log.length =
      (attemptLimit c.MaxRetries).toNat := by
    intro n
    have hlimeq : (mkLaneEnv c p (o n) n).limit =
        (attemptLimit c.MaxRetries).toNat := rfl
    rw [laneRun_of_buildNone (mkLaneEnv c p (o n) n) (hbuild n)]
    rw [laneLoop_allFail (mkLaneEnv c p (o n) n) (hfail n) (hfin n) (hca n)
      (hcb n) ((attemptLimit c.MaxRetries).toNat - 1) 1 (by omega)
      (by rw [hlimeq]; omega)]
    simp only [List.length_map, List.length_range']
    omega
  simp only [pesterCall, hcap, hm, if_true, hkeep, List.map_map]
  exact flatten_const_length _ _ hlane _

/-- Client configuration for the C2 witness: two concurrent lanes, three
attempts each, log retention on. -/
def clientC2 : Client :=
  { Concurrency := 2, MaxRetries := 3, KeepLog := true,
    RetryOnHTTP429 := false }

/-- A GET call's parameters for the C2 witness. -/
def paramsC2 : Params :=
  { method := "Get", verb := "GET", url := "u", bodyType := "",
    hasReq := false, reqBody := none, body := none }

/-- Witness for C2: 2 lanes × 3 attempts with every attempt failing gives 6
log entries. -/
theorem log_count_c2_witness :
    clientC2.KeepLog = true ∧ captureBody paramsC2 = Except.ok [] ∧
    methodSupported paramsC2.method = true ∧
    (pesterCall clientC2 paramsC2 (fun _ => oracleAllFail)).errLogAppended.length =
      effectiveConcurrency clientC2.Concurrency paramsC2.verb *
        (attemptLimit clientC2.MaxRetries).toNat :=
  ⟨rfl, rfl, rfl,
    log_count_c2 clientC2 paramsC2 (fun _ => oracleAllFail) [] rfl rfl rfl
      (fun _ => rfl) (fun _ _ => rfl) (fun _ _ => rfl) (fun _ _ => rfl)
      (fun _ _ => rfl)⟩

/-! ### Claim C5: cancellation during the backoff wait -/

/-- When attempts 1..k all fail retryably with nothing observed until the
backoff wait after attempt k, where cancellation fires, the loop logs
attempts i..k and terminates with the cancellation result. -/
lemma laneLoop_cancelBackoff (env : LaneEnv) (k : Nat)
    (hfin : ∀ j, j ≤ k → env.finished j = false)
    (hfail : ∀ j, j ≤ k → shouldDeliver env.retry429 (env.outcome j) = false)
    (hca : ∀ j, j ≤ k → env.cancelledAfterLog j = false)
    (hcb : ∀ j, j < k → env.cancelledInBackoff j = false)
    (hk : env.cancelledInBackoff k = true)
    (hklim : k < env.limit) :
    ∀ d i, 1 ≤ i → i + d = k →
      laneLoop env i =
        ⟨(List.range' i (d + 1)).map (mkEntry env), d + 1,
          LaneOutcome.cancelled k (env.outcome k)⟩ := by
  intro d
  induction d with
  | zero =>
    intro i h1 hik
    have hik0 : i = k := by omega
    subst hik0
    rw [laneLoop_step env i (by omega),
      if_neg (by simp [hfin i (by omega)]),
      if_neg (by simp [hfail i (by omega)]),
      if_neg (by omega : ¬(i = env.limit)),
      if_neg (by simp [hca i (by omega)]),
      if_pos hk]
    rfl
  | succ d ih =>
    intro i h1 hik
    rw [laneLoop_step env i (by omega),
      if_neg (by simp [hfin i (by omega)]),
      if_neg (by simp [hfail i (by omega)]),
      if_neg (by omega : ¬(i = env.limit)),
      if_neg (by simp [hca i (by omega)]),
      if_neg (by simp [hcb i (by omega)])]
    rw [ih (i + 1) (by omega) (by omega)]
    have hr : List.range' i (d + 1 + 1) = i :: List.range' (i + 1) (d + 1) := rfl
    rw [hr]
    rfl

/-- Claim C5: if the context is cancelled while the lane sleeps in the
backoff wait after attempt k (every earlier check having passed), the lane
stops with exactly k attempts made, terminates with the cancellation result,
and a single-lane call delivers the context cancellation error to the
caller. -/
theorem cancellation_c5 (c : Client) (p : Params) (o : Nat → LaneOracle)
    (b : List Nat) (k : Nat)
    (hconc : effectiveConcurrency c.Concurrency p.verb = 1)
    (hcap : captureBody p = Except.ok b)
    (hm : methodSupported p.method = true)
    (hbuild : (o 0).buildErr = none)
    (h1k : 1 ≤ k)
    (hklim : k < (attemptLimit c.MaxRetries).toNat)
    (hfin : ∀ j, j ≤ k → (o 0).finished j = false)
    (hfail : ∀ j, j ≤ k →
      shouldDeliver c.RetryOnHTTP429 ((o 0).outcome j) = false)
    (hca : ∀ j, j ≤ k → (o 0).cancelledAfterLog j = false)
    (hcb : ∀ j, j < k → (o 0).cancelledInBackoff j = false)
    (hk : (o 0).cancelledInBackoff k = true) :
    (laneRun (mkLaneEnv c p (o 0) 0)).attempts = k ∧
    (laneRun (mkLaneEnv c p (o 0) 0)).res =
      LaneOutcome.cancelled k ((o 0).outcome k) ∧
    (pesterCall c p o).res =
      some (statusOf ((o 0).outcome k), some CallError.ctxCancelled) := by
  have hrun : laneRun (mkLaneEnv c p (o 0) 0) =
      ⟨(List.range' 1 ((k - 1) + 1)).map (mkEntry (mkLaneEnv c p (o 0) 0)),
        (k - 1) + 1, LaneOutcome.cancelled k ((o 0).outcome k)⟩ := by
    rw [laneRun_of_buildNone (mkLaneEnv c p (o 0) 0) hbuild]
    exact laneLoop_cancelBackoff (mkLaneEnv c p (o 0) 0) k hfin hfail hca hcb
      hk hklim (k - 1) 1 (by omega) (by omega)
  refine ⟨?_, ?_, ?_⟩
  · rw [hrun]
    show (k - 1) + 1 = k
    omega
  · rw [hrun]
  · simp only [pesterCall, hcap, hm, if_true, hconc]
    have hr1 : List.range 1 = [0] := rfl
    rw [hr1]
    simp only [List.map_cons, List.map_nil, List.filterMap_cons, hrun]
    rfl

/-- Client configuration for the C5 witness: one lane, five attempts. -/
def clientC5 : Client :=
  { Concurrency := 1, MaxRetries := 5, KeepLog := true,
    RetryOnHTTP429 := false }

/-- Lane oracle for the C5 witness: every attempt fails, and the context
cancellation fires during the backoff wait after attempt 2. -/
def oracleC5 : LaneOracle :=
  { buildErr := none, outcome := fun _ => Outcome.fail "connection refused" none,
    attemptTime := fun _ => 0, finished := fun _ => false,
    cancelledAfterLog := fun _ => false,
    cancelledInBackoff := fun j => j == 2 }

/-- Witness for C5 at k = 2 under clientC5. -/
theorem cancellation_c5_witness :
    effectiveConcurrency clientC5.Concurrency paramsC2.verb = 1 ∧
    captureBody paramsC2 = Except.ok [] ∧
    methodSupported paramsC2.method = true ∧
    (2 : Nat) < (attemptLimit clientC5.MaxRetries).toNat ∧
    (oracleC5.cancelledInBackoff 2 = true) ∧
    ((laneRun (mkLaneEnv clientC5 paramsC2 ((fun _ => oracleC5) 0) 0)).attempts = 2 ∧
    (laneRun (mkLaneEnv clientC5 paramsC2 ((fun _ => oracleC5) 0) 0)).res =
      LaneOutcome.cancelled 2 (((fun _ => oracleC5) 0).outcome 2) ∧
    (pesterCall clientC5 paramsC2 (fun _ => oracleC5)).res =
      some (statusOf (((fun _ => oracleC5) 0).outcome 2),
        some CallError.ctxCancelled)) :=
  ⟨rfl, rfl, rfl, by decide, rfl,
    cancellation_c5 clientC5 paramsC2 (fun _ => oracleC5) [] 2 rfl rfl rfl rfl
      (by decide) (by decide) (fun _ _ => rfl) (fun _ _ => rfl)
      (fun _ _ => rfl) (by decide) rfl⟩

/-! ### Claim C9: what LogString renders -/

lemma logString_contains (L : List ErrEntry) :
    ∀ e ∈ L, strContains (LogString L) (FormatError e) := by
  induction L with
  | nil =>
    intro e he
    exact absurd he (List.not_mem_nil e)
  | cons a rest ih =>
    intro e he
    rcases List.mem_cons.mp he with h | h
    · subst h
      show strContains (FormatError e ++ LogString rest) (FormatError e)
      exact strContains_app_left _ _ _ (strContains_refl _)
    · show strContains (FormatError a ++ LogString rest) (FormatError e)
      exact strContains_app_right _ _ _ (ih e h)

lemma logString_count (L : List ErrEntry)
    (h : ∀ e ∈ L, (∀ c ∈ e.Method.data, c ≠ newline) ∧
      (∀ c ∈ e.Verb.data, c ≠ newline) ∧ (∀ c ∈ e.URL.data, c ≠ newline) ∧
      (∀ c ∈ (errString e.Err).data, c ≠ newline)) :
    (LogString L).data.count newline = L.length := by
  induction L with
  | nil => rfl
  | cons a rest ih =>
    show ((FormatError a ++ LogString rest)).data.count newline =
      rest.length + 1
    rw [count_append_str]
    have ha := h a (List.mem_cons_self a rest)
    rw [formatError_one_newline a ha.1 ha.2.1 ha.2.2.1 ha.2.2.2]
    rw [ih (fun e he => h e (List.mem_cons_of_mem a he))]
    omega

/-- Claim C9 (amended): provided no rendered field contains a newline,
LogString renders exactly one line per logged record (one newline per
entry), every record's rendering appears inside the output, and each line
contains the record's timestamp, operation kind, verb, URL, lane index, the
deprecated retry counter and the error.  The retry counter of every record
the retry loop logs equals the attempt number plus one; the attempt number
itself is not part of the rendered line. -/
theorem logString_c9_amended (L : List ErrEntry)
    (h : ∀ e ∈ L, (∀ c ∈ e.Method.data, c ≠ newline) ∧
      (∀ c ∈ e.Verb.data, c ≠ newline) ∧ (∀ c ∈ e.URL.data, c ≠ newline) ∧
      (∀ c ∈ (errString e.Err).data, c ≠ newline)) :
    (LogString L).data.count newline = L.length ∧
    (∀ e ∈ L, strContains (LogString L) (FormatError e)) ∧
    (∀ e ∈ L, strContains (FormatError e) (toString e.Time) ∧
      strContains (FormatError e) e.Method ∧
      strContains (FormatError e) e.Verb ∧
      strContains (FormatError e) e.URL ∧
      strContains (FormatError e) (toString e.Request) ∧
      strContains (FormatError e) (toString e.Retry) ∧
      strContains (FormatError e) (errString e.Err)) ∧
    (∀ env i, (mkEntry env i).Retry = (mkEntry env i).Attempt + 1) := by
  refine ⟨logString_count L h, logString_contains L, ?_, fun env i => rfl⟩
  intro e he
  refine ⟨?_, ?_, ?_, ?_, ?_, ?_, ?_⟩ <;> unfold FormatError
  · apply strContains_app_left
    apply strContains_app_left
    apply strContains_app_left
    apply strContains_app_left
    apply strContains_app_left
    apply strContains_app_left
    apply strContains_app_left
    apply strContains_app_left
    apply strContains_app_left
    apply strContains_app_left
    apply strContains_app_left
    apply strContains_app_left
    apply strContains_app_left
    exact strContains_refl _
  · apply strContains_app_left
    apply strContains_app_left
    apply strContains_app_left
    apply strContains_app_left
    apply strContains_app_left
    apply strContains_app_left
    apply strContains_app_left
    apply strContains_app_left
    apply strContains_app_left
    apply strContains_app_left
    apply strContains_app_left
    apply strContains_app_right
    exact strContains_refl _
  · apply strContains_app_left
    apply strContains_app_left
    apply strContains_app_left
    apply strContains_app_left
    apply strContains_app_left
    apply strContains_app_left
    apply strContains_app_left
    apply strContains_app_left
    apply strContains_app_left
    apply strContains_app_right
    exact strContains_refl _
  · apply strContains_app_left
    apply strContains_app_left
    apply strContains_app_left
    apply strContains_app_left
    apply strContains_app_left
    apply strContains_app_left
    apply strContains_app_left
    apply strContains_app_right
    exact strContains_refl _
  · apply strContains_app_left
    apply strContains_app_left
    apply strContains_app_left
    apply strContains_app_left
    apply strContains_app_left
    apply strContains_app_right
    exact strContains_refl _
  · apply strContains_app_left
    apply strContains_app_left
    apply strContains_app_left
    apply strContains_app_right
    exact strContains_refl _
  · apply strContains_app_left
    apply strContains_app_right
    exact strContains_refl _

/-- Entry for the C9 witness. -/
def entryC9 : ErrEntry :=
  { Time := 0, Method := "Get", URL := "u", Verb := "GET", Request := 0,
    Retry := 2, Attempt := 1, Err := some "x" }

/-- Witness for the amended C9 on a one-entry log. -/
theorem logString_c9_witness :
    (∀ e ∈ [entryC9], (∀ c ∈ e.Method.data, c ≠ newline) ∧
      (∀ c ∈ e.Verb.data, c ≠ newline) ∧ (∀ c ∈ e.URL.data, c ≠ newline) ∧
      (∀ c ∈ (errString e.Err).data, c ≠ newline)) ∧
    ((LogString [entryC9]).data.count newline = [entryC9].length ∧
    (∀ e ∈ [entryC9], strContains (LogString [entryC9]) (FormatError e)) ∧
    (∀ e ∈ [entryC9], strContains (FormatError e) (toString e.Time) ∧
      strContains (FormatError e) e.Method ∧
      strContains (FormatError e) e.Verb ∧
      strContains (FormatError e) e.URL ∧
      strContains (FormatError e) (toString e.Request) ∧
      strContains (FormatError e) (toString e.Retry) ∧
      strContains (FormatError e) (errString e.Err)) ∧
    (∀ env i, (mkEntry env i).Retry = (mkEntry env i).Attempt + 1)) :=
  ⟨by decide, logString_c9_amended [entryC9] (by decide)⟩

/-- Lane environment of the C9 counterexample: a single attempt, failing
with error message x. -/
def envC9 : LaneEnv :=
  { retry429 := false, limit := 1, method := "Get", verb := "GET", url := "u",
    laneIdx := 0, buildErr := none,
    outcome := fun _ => Outcome.fail "x" none, attemptTime := fun _ => 0,
    finished := fun _ => false, cancelledAfterLog := fun _ => false,
    cancelledInBackoff := fun _ => false }

/-- Claim C9 counterexample: the lane logs the record of attempt 1 (with
Retry = 2), yet the rendered line nowhere contains the attempt number 1:
FormatError prints the deprecated Retry counter, not the Attempt field. -/
theorem logString_c9_counterexample :
    (laneRun envC9).log = [entryC9] ∧ entryC9.Attempt = 1 ∧
    ¬ strContains (FormatError entryC9) (toString (1 : Int)) := by
  refine ⟨by decide, by decide, ?_⟩
  intro hcon
  have hmem : ('1' : Char) ∈ (FormatError entryC9).data :=
    strContains_mem _ _ hcon '1' (by decide)
  exact absurd hmem (by decide)

/-! ### Counterexamples for C2 and C3: the finish-channel race -/

/-- A lane oracle for a lane that observes the closed finish channel at
every loop-top check: once another lane's result has landed and finishCh is
closed, the select at the top of the loop deterministically takes the finish
case, so such a lane stops before its next attempt. -/
def oracleFinishedEarly : LaneOracle :=
  { buildErr := none,
    outcome := fun _ => Outcome.fail "connection refused" none,
    attemptTime := fun _ => 0, finished := fun _ => true,
    cancelledAfterLog := fun _ => false, cancelledInBackoff := fun _ => false }

/-- Oracles of a realizable racing schedule: lane 0 runs its attempts to
exhaustion and delivers first; lane 1 observes the then-closed finish
channel already at its first loop-top check. -/
def oracleC2cex (n : Nat) : LaneOracle :=
  if n = 0 then oracleAllFail else oracleFinishedEarly

/-- Claim C2 counterexample: with Concurrency 2, MaxRetries 3, log retention
on and every performed attempt retryable, the schedule in which lane 1
observes the finish channel (closed after lane 0's exhausted result) before
its first attempt logs only 3 records, not C x R = 6.  The unconditional
claim therefore fails on racing executions. -/
theorem log_count_c2_counterexample :
    clientC2.KeepLog = true ∧
    (∀ n, n < 2 → ∀ j, j ≤ 3 →
      shouldDeliver clientC2.RetryOnHTTP429 ((oracleC2cex n).outcome j) = false) ∧
    (pesterCall clientC2 paramsC2 oracleC2cex).errLogAppended.length = 3 ∧
    effectiveConcurrency clientC2.Concurrency paramsC2.verb *
      (attemptLimit clientC2.MaxRetries).toNat = 6 ∧
    (pesterCall clientC2 paramsC2 oracleC2cex).errLogAppended.length ≠
      effectiveConcurrency clientC2.Concurrency paramsC2.verb *
        (attemptLimit clientC2.MaxRetries).toNat := by
  decide

/-- A lane under MaxRetries = -2 (AttemptLimit 1) that observes the closed
finish channel at its first loop-top check; realizable under GET concurrency
at least 2, after a faster lane has delivered its single-attempt result. -/
def envC3cex : LaneEnv :=
  { retry429 := false, limit := 1, method := "Get", verb := "GET", url := "u",
    laneIdx := 1, buildErr := none,
    outcome := fun _ => Outcome.fail "x" none, attemptTime := fun _ => 0,
    finished := fun _ => true, cancelledAfterLog := fun _ => false,
    cancelledInBackoff := fun _ => false }

/-- Claim C3 counterexample: under MaxRetries ≤ 0 a lane that sees the
closed finish channel before its first attempt performs zero transport
attempts, not exactly one. -/
theorem attempt_limit_c3_counterexample :
    envC3cex.limit = (attemptLimit (-2)).toNat ∧ envC3cex.buildErr = none ∧
    (laneRun envC3cex).attempts = 0 ∧ ¬((laneRun envC3cex).attempts = 1) := by
  decide
